import Mathlib

/-!
Verification of the openglobus LOD terrain/elevation streaming engine.

JavaScript numbers are embedded as exact rationals (`ℚ`); a JS value that can
be `undefined`/`NaN` is embedded as `Option ℚ` with `none` for the invalid
value.  Pure functions of the source become Lean functions; the mutable
`GlobusTerrain` caches become an explicit `TerrainState` threaded through the
operations, and asynchronous fetch resolution becomes an explicit
`resolveGndFetch`/`loadTerrainResolve` step applied to the pending record.

Functions of modules that are not part of the sources (the `mercator`
module, `utils/shared`, the `Lock` class, `Layer.getTileIndex`) are modelled
from the spec and marked as such in their doc comments; everything else is
translated from the source files.
-/

namespace Og

/-- Geographic or projected coordinate pair, as in `LonLat.js`. -/
structure LonLat where
  lon : ℚ
  lat : ℚ
deriving DecidableEq, Repr

/-- Rectangular extent with south-west and north-east corners, as in `Extent.js`. -/
structure Extent where
  southWest : LonLat
  northEast : LonLat
deriving DecidableEq, Repr

/-- Width of an extent (`Extent.getWidth`). -/
def Extent.getWidth (e : Extent) : ℚ :=
  e.northEast.lon - e.southWest.lon

/-- Modelled from the spec: `Extent.isInside` of the missing `Extent.js` —
inclusive containment of a point in the rectangle. -/
def Extent.isInside (e : Extent) (p : LonLat) : Bool :=
  decide (e.southWest.lon ≤ p.lon ∧ p.lon ≤ e.northEast.lon ∧
          e.southWest.lat ≤ p.lat ∧ p.lat ≤ e.northEast.lat)

/-- JavaScript `Math.round`: half-up rounding towards positive infinity. -/
def jsRound (q : ℚ) : ℤ := ⌊q + 1/2⌋

/-- Mercator pole value; the constant appears in the source
(`EarthQuadTreeStrategy.init` root extent array). -/
def POLE : ℚ := 20037508.34

/-- Twice the pole value (`mercator.POLE2`). -/
def POLE2 : ℚ := 2 * POLE

/-- Modelled from the spec: `mercator.MAX_LAT` of the missing `mercator`
module — the maximal latitude of the main web-mercator band. -/
def MAX_LAT : ℚ := 85.0511287798

/-- Modelled from the spec: `mercator.MIN_LAT`, the southern edge of the main
band. -/
def MIN_LAT : ℚ := -MAX_LAT

/-- Modelled from the spec: `mercator.getTileExtent` of the missing
`mercator` module — the exact inverse of the main-band floor indexing:
tile (x, y) at a zoom covers one `POLE2 / 2 ^ zoom` square of the
projected plane, rows counted from the north. -/
def getTileExtent (x y : ℤ) (zoom : ℕ) : Extent :=
  let size : ℚ := POLE2 / 2 ^ zoom
  let left : ℚ := -POLE + x * size
  let top : ℚ := POLE - y * size
  ⟨⟨left, top - size⟩, ⟨left + size, top⟩⟩

/-- Topology group of a tile: main mercator band or one of the polar caps
(`TILEGROUP_NORTH` / `TILEGROUP_SOUTH` of `Segment.ts`). -/
inductive TileGroup where
  | common
  | north
  | south
deriving DecidableEq, Repr

/-- Modelled from the spec: `getTileGroupByLat` of the missing `Segment.ts` —
selects the polar cap band for latitudes beyond the mercator limit. -/
def getTileGroupByLat (lat maxLat : ℚ) : TileGroup :=
  if lat > maxLat then .north
  else if lat < -maxLat then .south
  else .common

/-- Result of `getTileXY`: tile column, row, zoom and topology group. -/
structure TileXYZG where
  x : ℤ
  y : ℤ
  z : ℕ
  group : TileGroup
deriving DecidableEq, Repr

/-- Embedding of `EarthQuadTreeStrategy.getTileXY`.  The geographic to
web-mercator projection `forward` of the missing `mercator` module is passed
as a parameter; only the main band uses it. -/
def earthGetTileXY (forward : LonLat → LonLat) (lonLat : LonLat) (zoom : ℕ) : TileXYZG :=
  match getTileGroupByLat lonLat.lat MAX_LAT with
  | .north =>
      let pz : ℚ := 2 ^ zoom
      let sizeLon : ℚ := 360 / pz
      let sizeLat : ℚ := (90 - MAX_LAT) / pz
      ⟨⌊(180 + lonLat.lon) / sizeLon⌋, jsRound ((90 - lonLat.lat) / sizeLat), zoom, .north⟩
  | .south =>
      let pz : ℚ := 2 ^ zoom
      let sizeLon : ℚ := 360 / pz
      let sizeLat : ℚ := (90 - MAX_LAT) / pz
      ⟨⌊(180 + lonLat.lon) / sizeLon⌋, jsRound ((MIN_LAT - lonLat.lat) / sizeLat), zoom, .south⟩
  | .common =>
      let size : ℚ := POLE2 / 2 ^ zoom
      let merc := forward lonLat
      ⟨⌊(POLE + merc.lon) / size⌋, ⌊(POLE - merc.lat) / size⌋, zoom, .common⟩

/-- Modelled from the spec: the tile extent of a north polar-cap tile —
"`tileExtent(x,y,zoom,topology) -> Extent`: exact inverse mapping" of the cap
indexing grid: `2 ^ zoom` columns of longitude and `2 ^ zoom` rows of latitude
counted down from the pole, covering the cap band `[MAX_LAT, 90]`. -/
def northTileExtent (x y : ℤ) (zoom : ℕ) : Extent :=
  let pz : ℚ := 2 ^ zoom
  let sizeLon : ℚ := 360 / pz
  let sizeLat : ℚ := (90 - MAX_LAT) / pz
  ⟨⟨-180 + x * sizeLon, 90 - (y + 1) * sizeLat⟩, ⟨-180 + (x + 1) * sizeLon, 90 - y * sizeLat⟩⟩

/-- Modelled from the spec: `cartesianToBarycentricLonLat` of the missing
`utils/shared.js` — barycentric coordinates of a point with respect to a
triangle, with inclusive containment ("returns the barycentric interpolation
from whichever triangle contains the point").  A degenerate triangle
(denominator zero) never reports containment, matching the IEEE semantics of
the original where the coordinates become infinite or NaN and every
comparison fails. -/
def cartesianToBarycentricLonLat (p v1 v2 v3 : LonLat) : Option (ℚ × ℚ × ℚ) :=
  let d := (v3.lon - v2.lon) * (v1.lat - v3.lat) + (v1.lon - v3.lon) * (v2.lat - v3.lat)
  if d = 0 then none
  else
    let l1 := ((v2.lat - v3.lat) * (p.lon - v3.lon) + (v3.lon - v2.lon) * (p.lat - v3.lat)) / d
    let l2 := ((v3.lat - v1.lat) * (p.lon - v3.lon) + (v1.lon - v3.lon) * (p.lat - v3.lat)) / d
    if 0 ≤ l1 ∧ l1 ≤ 1 ∧ 0 ≤ l2 ∧ l2 ≤ 1 ∧ 0 ≤ 1 - l1 - l2 ∧ 1 - l1 - l2 ≤ 1 then
      some (l1, l2, 1 - l1 - l2)
    else none

/-- Cached elevation tile: decoded height grid plus its projected extent
(the objects stored in `GlobusTerrain._elevationCache`). -/
structure CacheEntry where
  heights : List ℚ
  extent : Extent
deriving DecidableEq, Repr

/-- JavaScript array read `a[i]`: `none` embeds the `undefined` produced by
an out-of-range or negative index. -/
def hGet (l : List ℚ) (i : ℤ) : Option ℚ :=
  if 0 ≤ i then l.get? i.toNat else none

/-- Interpolation value `h0 * c0 + h1 * c1 + h2 * c2`; if any height read was
`undefined` the JavaScript result is NaN, embedded as `none`. -/
def mix3 (h0 h1 h2 : Option ℚ) (c : ℚ × ℚ × ℚ) : Option ℚ :=
  match h0, h1, h2 with
  | some a, some b, some g => some (a * c.1 + b * c.2.1 + g * c.2.2)
  | _, _, _ => none

/-- External collaborators of `GlobusTerrain`, passed as parameters:
`geoid` is the opaque geoid lookup (`Geoid.getHeightLonLat`); `getTileX`,
`getTileY` and `forward` are modelled from the spec as the pure
geographic-to-tile and geographic-to-mercator conversions of the missing
`mercator` module. -/
structure Env where
  geoid : LonLat → ℚ
  getTileX : ℚ → ℕ → ℤ
  getTileY : ℚ → ℕ → ℤ
  forward : LonLat → LonLat

/-- Grid size of a cached tile, `Math.sqrt(tileData.heights.length)`; in
every reachable cache entry the length is a perfect square (`32 * 32`
decoded grids) or zero (the no-data sentinel), where `Nat.sqrt` coincides
with the JavaScript square root. -/
def gridSide (td : CacheEntry) : ℕ := Nat.sqrt td.heights.length

/-- Cell edge length `w / (gs - 1)` used by `_getGroundHeight`. -/
def cellSize (td : CacheEntry) : ℚ :=
  td.extent.getWidth / ((gridSide td : ℚ) - 1)

/-- Row index `i` of the grid cell of a projected point
(`gs - Math.ceil((merc.lat - sw.lat) / size) - 1`). -/
def cellI (merc : LonLat) (td : CacheEntry) : ℤ :=
  (gridSide td : ℤ) - ⌈(merc.lat - td.extent.southWest.lat) / cellSize td⌉ - 1

/-- Column index `j` of the grid cell of a projected point
(`Math.floor((merc.lon - sw.lon) / size)`). -/
def cellJ (merc : LonLat) (td : CacheEntry) : ℤ :=
  ⌊(merc.lon - td.extent.southWest.lon) / cellSize td⌋

/-- South-west corner `v0` of the grid cell. -/
def cellV0 (merc : LonLat) (td : CacheEntry) : LonLat :=
  ⟨td.extent.southWest.lon + cellSize td * cellJ merc td,
   td.extent.northEast.lat - cellSize td * cellI merc td - cellSize td⟩

/-- South-east corner `v1` of the grid cell. -/
def cellV1 (merc : LonLat) (td : CacheEntry) : LonLat :=
  ⟨(cellV0 merc td).lon + cellSize td, (cellV0 merc td).lat⟩

/-- North-west corner `v2` of the grid cell. -/
def cellV2 (merc : LonLat) (td : CacheEntry) : LonLat :=
  ⟨(cellV0 merc td).lon, (cellV0 merc td).lat + cellSize td⟩

/-- North-east corner `v3` of the grid cell. -/
def cellV3 (merc : LonLat) (td : CacheEntry) : LonLat :=
  ⟨(cellV0 merc td).lon + cellSize td, (cellV0 merc td).lat + cellSize td⟩

/-- First-test-wins combinator mirroring the `if / else if / else` chain at
the end of `_getGroundHeight`: interpolate from the first triangle whose
test passed, and produce nothing when both fail. -/
def pick2 (t1 t2 : Option (ℚ × ℚ × ℚ)) (f g : ℚ × ℚ × ℚ → Option ℚ) : Option ℚ :=
  match t1 with
  | some c => f c
  | none =>
    match t2 with
    | some c => g c
    | none => none

/-- Embedding of `GlobusTerrain._getGroundHeight`: locates the grid cell of
the projected query point, splits it into the triangles `(v0, v1, v2)` and
`(v1, v2, v3)` and interpolates from whichever contains the point; when
neither does, the original logs a data-integrity error and returns
`undefined`, embedded as `none`.  (The `extent.isInside` checks of the
original only log and do not affect the result.) -/
def getGroundHeight (env : Env) (lonLat : LonLat) (tileData : CacheEntry) : Option ℚ :=
  let merc := env.forward lonLat
  let gs : ℤ := gridSide tileData
  let i := cellI merc tileData
  let j := cellJ merc tileData
  let h0 := hGet tileData.heights ((i + 1) * gs + j)
  let h1 := hGet tileData.heights ((i + 1) * gs + j + 1)
  let h2 := hGet tileData.heights (i * gs + j)
  let h3 := hGet tileData.heights (i * gs + j + 1)
  pick2
    (cartesianToBarycentricLonLat merc (cellV0 merc tileData) (cellV1 merc tileData)
      (cellV2 merc tileData))
    (cartesianToBarycentricLonLat merc (cellV1 merc tileData) (cellV2 merc tileData)
      (cellV3 merc tileData))
    (mix3 h0 h1 h2) (mix3 h1 h2 h3)

/-- Value passed to a GROUND-mode callback against a cached tile:
`altEll - (groundHeight + altMsl)`, or NaN (`none`) when the interpolation
produced no value. -/
def groundCallbackValue (env : Env) (lonLat : LonLat) (cache : CacheEntry)
    (altEll altMsl : ℚ) : Option ℚ :=
  match getGroundHeight env lonLat cache with
  | some g => some (altEll - (g + altMsl))
  | none => none

/-- Tile cache key: `Layer.getTileIndex(x, y, z)` joins the three numbers
into a unique string; the triple itself is the faithful key. -/
abbrev TileIndex := ℤ × ℤ × ℕ

/-- Pending fetch record stored in `GlobusTerrain._fetchCache`: the promise
for the tile with the captured coordinates, together with every continuation
registered on it (one per `getHeightAsync` call that found it pending). -/
structure Continuation where
  lonLat : LonLat
  altEll : ℚ
deriving DecidableEq, Repr

/-- One in-flight point-query fetch and its registered continuations. -/
structure PendingFetch where
  x : ℤ
  y : ℤ
  z : ℕ
  conts : List Continuation
deriving DecidableEq, Repr

/-- Mutable state of a `GlobusTerrain` instance: the elevation cache and the
fetch-dedup table, both keyed by tile index. -/
structure TerrainState where
  elevationCache : TileIndex → Option CacheEntry
  fetchCache : TileIndex → Option PendingFetch

/-- Pointwise map update. -/
def upd {α : Type} (f : TileIndex → Option α) (t : TileIndex) (v : Option α) :
    TileIndex → Option α :=
  fun u => if u = t then v else f u

/-- The state of a freshly constructed terrain provider: both caches empty. -/
def emptyTerrainState : TerrainState := ⟨fun _ => none, fun _ => none⟩

/-- Loader configuration taken from the `GlobusTerrain` constructor options. -/
structure TerrainCfg where
  maxZoom : ℕ
deriving DecidableEq, Repr

/-- Tile index a GROUND-mode height request resolves to: computed from the
query point at the loader's configured maximum zoom
(`z = this.maxZoom; x = mercator.getTileX(lon, z); y = mercator.getTileY(lat, z)`). -/
def gndTileIndex (env : Env) (cfg : TerrainCfg) (lonLat : LonLat) : TileIndex :=
  (env.getTileX lonLat.lon cfg.maxZoom, env.getTileY lonLat.lat cfg.maxZoom, cfg.maxZoom)

/-- Result of the synchronous part of a GROUND-mode height request:
the successor state, the value handed to the callback when it ran
immediately (cache hit), and whether a new network fetch was issued. -/
structure GndResult where
  state : TerrainState
  callbackNow : Option (Option ℚ)
  fetchIssued : Bool

/-- Embedding of the GROUND entry of `GlobusTerrain._ellToAltFn` (the body
of `getHeightAsync` in GROUND mode) up to the point where it returns:
a cache hit invokes the callback at once; otherwise the callback is
registered on the pending fetch for the tile index, creating the fetch only
when none is pending. -/
def getHeightAsyncGnd (env : Env) (cfg : TerrainCfg) (s : TerrainState)
    (lonLat : LonLat) (altEll : ℚ) : GndResult :=
  let altMsl := env.geoid lonLat
  let x := env.getTileX lonLat.lon cfg.maxZoom
  let y := env.getTileY lonLat.lat cfg.maxZoom
  let t : TileIndex := (x, y, cfg.maxZoom)
  match s.elevationCache t with
  | some cache => ⟨s, some (groundCallbackValue env lonLat cache altEll altMsl), false⟩
  | none =>
    match s.fetchCache t with
    | some pf =>
        ⟨⟨s.elevationCache,
          upd s.fetchCache t (some { pf with conts := pf.conts ++ [⟨lonLat, altEll⟩] })⟩,
         none, false⟩
    | none =>
        ⟨⟨s.elevationCache,
          upd s.fetchCache t (some ⟨x, y, cfg.maxZoom, [⟨lonLat, altEll⟩]⟩)⟩,
         none, true⟩

/-- Outcome of the three-state fetch primitive
(`{status: ready|error|abort, data}`); `other` stands for any unrecognised
status string, which the code treats like an abort. -/
inductive FetchResult where
  | ready (data : List ℚ)
  | error
  | abort
  | other
deriving DecidableEq, Repr

/-- Embedding of the continuation attached to the point-query fetch promise
(the `.then` body of the GROUND branch): resolving the pending fetch for a
tile index returns the successor state together with the list of values
passed to the registered callbacks, in registration order. -/
def resolveGndFetch (env : Env) (s : TerrainState) (t : TileIndex)
    (res : FetchResult) : TerrainState × List (Option ℚ) :=
  match s.fetchCache t with
  | none => (s, [])
  | some pf =>
    match res with
    | .ready data =>
        let cache : CacheEntry := ⟨data, getTileExtent pf.x pf.y pf.z⟩
        (⟨upd s.elevationCache t (some cache), s.fetchCache⟩,
         pf.conts.map fun c =>
           groundCallbackValue env c.lonLat cache c.altEll (env.geoid c.lonLat))
    | .error =>
        let cache : CacheEntry := ⟨[], getTileExtent pf.x pf.y pf.z⟩
        (⟨upd s.elevationCache t (some cache), s.fetchCache⟩,
         pf.conts.map fun c => some (c.altEll - env.geoid c.lonLat))
    | .abort => (⟨s.elevationCache, upd s.fetchCache t none⟩, [])
    | .other => (⟨s.elevationCache, upd s.fetchCache t none⟩, [])

/-- Modelled from the spec: the advisory lock of the missing `Lock`/`Key`
classes (`og.idle`) — "`lock(key)` adds the key to the lock's holder set;
`free(key)` removes it; `isFree()` holds iff the holder set is empty". -/
structure Lock where
  holders : List ℕ
deriving DecidableEq, Repr

/-- The lock is disengaged exactly when no holder remains. -/
def Lock.isFree (l : Lock) : Bool := l.holders.isEmpty

/-- The fields of a planet `Segment` read or written by
`GlobusTerrain.loadTerrain`; `projectionIsEPSG3857` embeds the
`segment._projection.id === EPSG3857.id` test. -/
structure Segment where
  tileIndex : TileIndex
  projectionIsEPSG3857 : Bool
  terrainReady : Bool
  terrainIsLoading : Bool
  extent : Extent
deriving DecidableEq, Repr

/-- Observable effect of one `loadTerrain` call or of the resolution of the
fetch it issued: rejected by the lock, elevations applied to the segment
(`_applyElevationsData`, with the payload handed to the `load` event when a
handler is subscribed), a loader fetch issued, the non-mercator TODO branch,
or a dropped response (abort / unknown status). -/
inductive LoadAction where
  | rejected
  | applied (elevations : Option (List ℚ)) (loadEventFired : Bool)
  | fetchIssued
  | polesTodo
  | dropped
deriving DecidableEq, Repr

/-- Result of `loadTerrain` or of its fetch continuation. -/
structure LoadResult where
  state : TerrainState
  segment : Segment
  action : LoadAction

/-- Embedding of the synchronous part of `GlobusTerrain.loadTerrain`: when
the terrain lock is engaged the segment is marked not-loading and nothing
else happens; otherwise the segment is marked loading and either the cached
elevations are applied at once or a loader fetch is issued (the cache miss
case).  `hasLoadHandlers` embeds `this.events.load.handlers.length`. -/
def loadTerrain (lock : Lock) (hasLoadHandlers : Bool) (s : TerrainState)
    (seg : Segment) : LoadResult :=
  if lock.isFree then
    let seg1 := { seg with terrainReady := false, terrainIsLoading := true }
    if seg.projectionIsEPSG3857 then
      match s.elevationCache seg.tileIndex with
      | some cache => ⟨s, seg1, .applied (some cache.heights) hasLoadHandlers⟩
      | none => ⟨s, seg1, .fetchIssued⟩
    else ⟨s, seg1, .polesTodo⟩
  else ⟨s, { seg with terrainIsLoading := false }, .rejected⟩

/-- Embedding of the response continuation of the fetch issued by
`loadTerrain`: a ready response decodes and caches the heights and applies
them; an abort only clears the loading flag; an error applies `null`
elevations (which also fires the `load` event); any other status clears the
loading flag. -/
def loadTerrainResolve (hasLoadHandlers : Bool) (s : TerrainState) (seg : Segment)
    (res : FetchResult) : LoadResult :=
  match res with
  | .ready data =>
      ⟨⟨upd s.elevationCache seg.tileIndex (some ⟨data, seg.extent⟩), s.fetchCache⟩,
       seg, .applied (some data) hasLoadHandlers⟩
  | .abort => ⟨s, { seg with terrainIsLoading := false }, .dropped⟩
  | .error => ⟨s, seg, .applied none hasLoadHandlers⟩
  | .other => ⟨s, { seg with terrainIsLoading := false }, .dropped⟩

/-- Picking colour, the first three bytes of the read-back pixel. -/
structure PickColor where
  r : ℕ
  g : ℕ
  b : ℕ
deriving DecidableEq, Repr

/-- The `ISBLACK` predicate of `RendererEvents.ts`. -/
def isBlackColor (c : PickColor) : Bool := decide (c.r = 0 ∧ c.g = 0 ∧ c.b = 0)

/-- The module-level mutable state of `RendererEvents.ts`: the file-scope
bindings `_currPickingColor`, `_prevPickingColor` and `__skipFrames__`,
shared by every `RendererEvents` instance in the process. -/
structure PickingModuleState where
  curr : PickColor
  prev : PickColor
  skipFrames : ℕ
deriving DecidableEq, Repr

/-- Enter/leave picking events dispatched towards entity handlers. -/
inductive PickEvent where
  | enter (obj : ℕ)
  | leave (obj : ℕ)
deriving DecidableEq, Repr

/-- The bound `MAX_SKIP_FRAMES_ON_BLACK`. -/
def MAX_SKIP_FRAMES_ON_BLACK : ℕ := 15

/-- Embedding of `RendererEvents.entityPickingEvents` for one instance:
`buttonsHold` is the per-instance mouse-button condition, `readColor` the
pixel the instance's renderer reads back, and `lookup` the instance's
`getPickingObjectArr` table from colours to entity identifiers.
The function transforms the shared module state and returns the
leave/enter events the instance dispatches. -/
def entityPickingEvents (buttonsHold : Bool) (readColor : PickColor)
    (lookup : PickColor → Option ℕ) (m : PickingModuleState) :
    PickingModuleState × List PickEvent :=
  if buttonsHold then (m, [])
  else
    let t := readColor
    if isBlackColor t ∧ m.skipFrames < MAX_SKIP_FRAMES_ON_BLACK then
      ({ m with skipFrames := m.skipFrames + 1 }, [])
    else
      let p := m.curr
      let c := t
      let m1 : PickingModuleState := ⟨c, p, 0⟩
      let co := lookup c
      if c ≠ p then
        if isBlackColor c then
          match lookup p with
          | some po => (m1, [.leave po])
          | none => (m1, [])
        else
          let leaves : List PickEvent :=
            if ¬ isBlackColor p then
              match lookup p with
              | some po => [.leave po]
              | none => []
            else []
          let enters : List PickEvent :=
            match co with
            | some o => [.enter o]
            | none => []
          (m1, leaves ++ enters)
      else (m1, [])

/-- Reference mercator projection value of the point `(7.0, 50.5)`:
longitude maps linearly to `POLE * 7 / 180`; the latitude value is a
rational reference placed inside tile row 5520 of zoom 14, consistent with
the true web-mercator image of latitude 50.5. -/
def mercRef : LonLat := ⟨POLE * 7 / 180, POLE * 5343 / 16384⟩

/-- The query point of the height-query scenario, `lonLat = (7.0, 50.5)`. -/
def pRef : LonLat := ⟨7, 101 / 2⟩

/-- Default loader configuration: `maxZoom = 14`. -/
def cfg14 : TerrainCfg := ⟨14⟩

/-- Tile index of `pRef` at zoom 14 under the reference projection. -/
def tRef : TileIndex := (8510, 5520, 14)

/-- Concrete environment agreeing with the reference projection at `pRef`. -/
def envA : Env := ⟨fun _ => 1, fun _ _ => 8510, fun _ _ => 5520, fun _ => mercRef⟩

/-- Concrete mercator segment addressing tile `tRef`. -/
def segA : Segment := ⟨tRef, true, false, false, getTileExtent 8510 5520 14⟩

/-- The 32 × 32 all-zero decoded height grid of the scenario, cached with
the extent of tile `tRef`. -/
def cacheZ : CacheEntry := ⟨List.replicate 1024 0, getTileExtent 8510 5520 14⟩

/-- A pending fetch record for tile `tRef` with one registered continuation. -/
def pfA : PendingFetch := ⟨8510, 5520, 14, [⟨pRef, 3⟩]⟩

/-- A state with the `pfA` fetch pending on every index and an empty
elevation cache. -/
def sPendA : TerrainState := ⟨fun _ => none, fun _ => some pfA⟩

/-- A 2 × 2 cached tile of constant height 10 over the unit square. -/
def cacheB : CacheEntry := ⟨[10, 10, 10, 10], ⟨⟨0, 0⟩, ⟨1, 1⟩⟩⟩

/-- Environment projecting every point to `(1/3, 1/3)`, inside `cacheB`. -/
def envB : Env := ⟨fun _ => 1, fun _ _ => 0, fun _ _ => 0, fun _ => ⟨1/3, 1/3⟩⟩

/-- A state whose elevation cache holds `cacheB` at every index. -/
def sHitB : TerrainState := ⟨fun _ => some cacheB, fun _ => none⟩

/-- A malformed cached tile: a 2 × 2 grid whose stored extent is the single
point `(0, 0)` — the data-integrity mismatch situation in which the
interpolation cell degenerates and neither triangle test can succeed. -/
def cacheC : CacheEntry := ⟨[1, 2, 3, 4], ⟨⟨0, 0⟩, ⟨0, 0⟩⟩⟩

/-- Query point far outside the degenerate extent of `cacheC`. -/
def pC : LonLat := ⟨5, 5⟩

/-- Environment projecting every point to `pC`, with a nonzero geoid. -/
def envC : Env := ⟨fun _ => 3, fun _ _ => 0, fun _ _ => 0, fun _ => pC⟩

/-- State reached after one GROUND-mode height request for `pRef` against an
empty terrain provider: the fetch for `tRef` is in flight. -/
def sAfterPoint : TerrainState :=
  (getHeightAsyncGnd envA cfg14 emptyTerrainState pRef 3).state

/-- A non-black picking colour. -/
def redC : PickColor := ⟨255, 0, 0⟩

/-- Picking table of the first renderer instance: knows no entity. -/
def lookupA : PickColor → Option ℕ := fun _ => none

/-- Picking table of the second renderer instance: entity 7 under `redC`. -/
def lookupB : PickColor → Option ℕ := fun c => if c = redC then some 7 else none

/-- Initial module-level picking state: both colours black. -/
def m0 : PickingModuleState := ⟨⟨0, 0, 0⟩, ⟨0, 0, 0⟩, 0⟩

/-- Reading any position of a replicated list yields the replicated value. -/
theorem replicate_get (a : ℚ) : ∀ (n m : ℕ), m < n → (List.replicate n a).get? m = some a := by
  intro n
  induction n with
  | zero => intro m h; omega
  | succ k ih =>
      intro m h
      cases m with
      | zero => simp [List.replicate]
      | succ j => simpa [List.replicate] using ih j (by omega)

/-- The all-zero scenario tile decodes to a 32 × 32 grid. -/
theorem gridSide_cacheZ : gridSide cacheZ = 32 := by
  rw [gridSide, cacheZ]
  rw [List.length_replicate, show (1024 : ℕ) = 32 * 32 from by norm_num, Nat.sqrt_eq]

/-- Cell edge of the scenario tile. -/
theorem cellSize_cacheZ : cellSize cacheZ = POLE / 253952 := by
  rw [cellSize, gridSide_cacheZ]
  norm_num [cacheZ, getTileExtent, Extent.getWidth, POLE2, POLE]

/-- Reading inside the all-zero grid yields height zero. -/
theorem hGet_cacheZ (i : ℤ) (h0 : 0 ≤ i) (h1 : i < 1024) :
    hGet cacheZ.heights i = some 0 := by
  rw [hGet, if_pos h0, cacheZ]
  exact replicate_get 0 1024 i.toNat (by omega)

/-- Grid row of the reference point inside the scenario tile. -/
theorem cellI_cacheZ : cellI mercRef cacheZ = 15 := by
  have hc : ⌈(mercRef.lat - cacheZ.extent.southWest.lat) / cellSize cacheZ⌉ = 16 := by
    rw [cellSize_cacheZ, Int.ceil_eq_iff]
    norm_num [mercRef, cacheZ, getTileExtent, POLE, POLE2]
  rw [cellI, gridSide_cacheZ, hc]
  norm_num

/-- Grid column of the reference point inside the scenario tile. -/
theorem cellJ_cacheZ : cellJ mercRef cacheZ = 17 := by
  rw [cellJ, cellSize_cacheZ, Int.floor_eq_iff]
  norm_num [mercRef, cacheZ, getTileExtent, POLE, POLE2]

/-- South-west corner of the interpolation cell of the reference point. -/
theorem cellV0_cacheZ : cellV0 mercRef cacheZ = ⟨POLE * 9875 / 253952, POLE * 82816 / 253952⟩ := by
  rw [cellV0, cellSize_cacheZ, cellI_cacheZ, cellJ_cacheZ]
  simp only [LonLat.mk.injEq, cacheZ, getTileExtent]
  norm_num [POLE, POLE2]

/-- First triangle test of the reference point: the point lies in the
upper-right half of its cell, so the lower-left triangle rejects it. -/
theorem bary1_cacheZ :
    cartesianToBarycentricLonLat mercRef (cellV0 mercRef cacheZ) (cellV1 mercRef cacheZ)
      (cellV2 mercRef cacheZ) = none := by
  rw [cellV1, cellV2, cellV0_cacheZ, cellSize_cacheZ, cartesianToBarycentricLonLat]
  norm_num [mercRef, POLE]

/-- Second triangle test of the reference point: the upper-right triangle
contains it with coordinates `(1/2, 4/45, 37/90)`. -/
theorem bary2_cacheZ :
    cartesianToBarycentricLonLat mercRef (cellV1 mercRef cacheZ) (cellV2 mercRef cacheZ)
      (cellV3 mercRef cacheZ) = some (1/2, 4/45, 37/90) := by
  rw [cellV1, cellV2, cellV3, cellV0_cacheZ, cellSize_cacheZ, cartesianToBarycentricLonLat]
  norm_num [mercRef, POLE]

/-- The first-test-wins combinator picks the second interpolation when the
first triangle rejects the point and the second accepts it. -/
theorem pick2_none_some (c : ℚ × ℚ × ℚ) (f g : ℚ × ℚ × ℚ → Option ℚ) :
    pick2 none (some c) f g = g c := rfl

/-- Interpolating the all-zero grid of `cacheZ` at the reference projection
of `pRef` yields ground height zero. -/
theorem getGroundHeight_cacheZ (env : Env) (h : env.forward pRef = mercRef) :
    getGroundHeight env pRef cacheZ = some 0 := by
  conv_lhs =>
    simp only [getGroundHeight]
    rw [h, bary1_cacheZ, bary2_cacheZ, cellI_cacheZ, cellJ_cacheZ, gridSide_cacheZ,
      pick2_none_some]
  rw [hGet_cacheZ _ (by norm_num) (by norm_num), hGet_cacheZ _ (by norm_num) (by norm_num),
    hGet_cacheZ _ (by norm_num) (by norm_num)]
  norm_num [mix3]

/-- The first-test-wins combinator picks the first interpolation when the
first triangle accepts the point. -/
theorem pick2_some (c : ℚ × ℚ × ℚ) (t2 : Option (ℚ × ℚ × ℚ)) (f g : ℚ × ℚ × ℚ → Option ℚ) :
    pick2 (some c) t2 f g = f c := rfl

/-- The constant 2 × 2 tile decodes to a 2 × 2 grid. -/
theorem gridSide_cacheB : gridSide cacheB = 2 := by
  rw [gridSide, cacheB]
  simp only [List.length_cons, List.length_nil]
  rw [show (0 + 1 + 1 + 1 + 1 : ℕ) = 2 * 2 from by norm_num, Nat.sqrt_eq]

/-- Cell edge of the constant 2 × 2 tile over the unit square. -/
theorem cellSize_cacheB : cellSize cacheB = 1 := by
  rw [cellSize, gridSide_cacheB]
  norm_num [cacheB, Extent.getWidth]

/-- Grid row of the projected point `(1/3, 1/3)` in the constant tile. -/
theorem cellI_cacheB : cellI ⟨1/3, 1/3⟩ cacheB = 0 := by
  have hc : ⌈((⟨1/3, 1/3⟩ : LonLat).lat - cacheB.extent.southWest.lat) / 1⌉ = 1 := by
    rw [Int.ceil_eq_iff]
    norm_num [cacheB]
  rw [cellI, gridSide_cacheB, cellSize_cacheB, hc]
  norm_num

/-- Grid column of the projected point `(1/3, 1/3)` in the constant tile. -/
theorem cellJ_cacheB : cellJ ⟨1/3, 1/3⟩ cacheB = 0 := by
  rw [cellJ, cellSize_cacheB, Int.floor_eq_iff]
  norm_num [cacheB]

/-- Interpolation cell corner of the constant tile at `(1/3, 1/3)`. -/
theorem cellV0_cacheB : cellV0 ⟨1/3, 1/3⟩ cacheB = ⟨0, 0⟩ := by
  rw [cellV0, cellSize_cacheB, cellI_cacheB, cellJ_cacheB]
  simp only [LonLat.mk.injEq, cacheB]
  norm_num

/-- The lower-left triangle of the unit cell contains `(1/3, 1/3)` with equal
barycentric weights. -/
theorem bary1_cacheB :
    cartesianToBarycentricLonLat ⟨1/3, 1/3⟩ (cellV0 ⟨1/3, 1/3⟩ cacheB)
      (cellV1 ⟨1/3, 1/3⟩ cacheB) (cellV2 ⟨1/3, 1/3⟩ cacheB) = some (1/3, 1/3, 1/3) := by
  rw [cellV1, cellV2, cellV0_cacheB, cellSize_cacheB, cartesianToBarycentricLonLat]
  norm_num

/-- Interpolating the constant 2 × 2 tile at the projection `(1/3, 1/3)`
yields the constant height 10. -/
theorem getGroundHeight_cacheB (env : Env) (h : env.forward pRef = ⟨1/3, 1/3⟩) :
    getGroundHeight env pRef cacheB = some 10 := by
  conv_lhs =>
    simp only [getGroundHeight]
    rw [h, bary1_cacheB, cellI_cacheB, cellJ_cacheB, gridSide_cacheB, pick2_some]
  rw [show hGet cacheB.heights ((0 + 1) * ((2 : ℕ) : ℤ) + 0) = some 10 from rfl,
    show hGet cacheB.heights ((0 + 1) * ((2 : ℕ) : ℤ) + 0 + 1) = some 10 from rfl,
    show hGet cacheB.heights ((0 : ℤ) * ((2 : ℕ) : ℤ) + 0) = some 10 from rfl]
  rw [mix3]
  norm_num

/-- The malformed tile has a 2 × 2 grid. -/
theorem gridSide_cacheC : gridSide cacheC = 2 := by
  rw [gridSide, cacheC]
  simp only [List.length_cons, List.length_nil]
  rw [show (0 + 1 + 1 + 1 + 1 : ℕ) = 2 * 2 from by norm_num, Nat.sqrt_eq]

/-- The degenerate extent of the malformed tile gives cell edge zero. -/
theorem cellSize_cacheC : cellSize cacheC = 0 := by
  rw [cellSize, gridSide_cacheC]
  norm_num [cacheC, Extent.getWidth]

/-- Degenerate interpolation cell corner of the malformed tile. -/
theorem cellV0_cacheC : cellV0 pC cacheC = ⟨0, 0⟩ := by
  rw [cellV0, cellSize_cacheC]
  simp only [LonLat.mk.injEq, cacheC]
  norm_num [pC]

/-- The first triangle of the degenerate cell rejects the query point: the
triangle collapses to a point and its denominator vanishes (in the original
the coordinates become infinite or NaN and every bound check fails). -/
theorem baryC1 :
    cartesianToBarycentricLonLat pC (cellV0 pC cacheC) (cellV1 pC cacheC)
      (cellV2 pC cacheC) = none := by
  rw [cellV1, cellV2, cellV0_cacheC, cellSize_cacheC, cartesianToBarycentricLonLat]
  norm_num

/-- The second triangle of the degenerate cell rejects the query point for
the same reason. -/
theorem baryC2 :
    cartesianToBarycentricLonLat pC (cellV1 pC cacheC) (cellV2 pC cacheC)
      (cellV3 pC cacheC) = none := by
  rw [cellV1, cellV2, cellV3, cellV0_cacheC, cellSize_cacheC, cartesianToBarycentricLonLat]
  norm_num

/-- Ground-height interpolation over the malformed tile produces no value:
both triangle tests fail and the function falls through its error branch. -/
theorem getGroundHeight_cacheC : getGroundHeight envC pC cacheC = none := by
  conv_lhs =>
    simp only [getGroundHeight]
    rw [show envC.forward pC = pC from rfl, baryC1, baryC2]
  rw [pick2]

/-- Claim C1: for every valid point, zoom and topology group, the tile
returned by `getTileXY` contains the input point in its extent, in the polar
caps as well as the main band.  This fails in the polar caps: the row index
is computed with `Math.round` while the column uses `Math.floor`.  At
`lonLat = (0, 86)`, zoom 0, the north cap has a single row (row 0 covers the
whole band `[85.0511287798, 90]`), yet the code returns row
`round(4 / 4.9488712202) = 1`, whose extent does not contain latitude 86 and
which does not even exist at zoom 0 (`2 ^ 0 = 1` rows). -/
theorem c1_polar_cap_round_violates_containment :
    earthGetTileXY (fun p => p) ⟨0, 86⟩ 0 = ⟨0, 1, 0, .north⟩ ∧
    (northTileExtent 0 1 0).isInside ⟨0, 86⟩ = false ∧
    (northTileExtent 0 0 0).isInside ⟨0, 86⟩ = true ∧
    ¬ (earthGetTileXY (fun p => p) ⟨0, 86⟩ 0).y < 2 ^ (0 : ℕ) := by
  have hxy : earthGetTileXY (fun p => p) ⟨0, 86⟩ 0 = ⟨0, 1, 0, .north⟩ := by
    simp only [earthGetTileXY, getTileGroupByLat]
    norm_num [MAX_LAT]
    rw [jsRound, Int.floor_eq_iff]
    norm_num
  refine ⟨hxy, ?_, ?_, ?_⟩
  · rw [Extent.isInside, decide_eq_false_iff_not]
    norm_num [northTileExtent, MAX_LAT]
  · rw [Extent.isInside, decide_eq_true_eq]
    norm_num [northTileExtent, MAX_LAT]
  · rw [hxy]
    norm_num

/-- Claim C2 (amended): within the GROUND-mode point-query path the
fetch-dedup table does guarantee at most one in-flight fetch per tile index —
a second height request arriving while the fetch for its tile index is
pending issues no new fetch and appends its continuation to the pending
record, leaving the elevation cache untouched. -/
theorem c2_point_query_fetch_dedup (env : Env) (cfg : TerrainCfg) (s : TerrainState)
    (lonLat : LonLat) (altEll : ℚ) (pf : PendingFetch)
    (hmiss : s.elevationCache (gndTileIndex env cfg lonLat) = none)
    (hpend : s.fetchCache (gndTileIndex env cfg lonLat) = some pf) :
    (getHeightAsyncGnd env cfg s lonLat altEll).fetchIssued = false ∧
    (getHeightAsyncGnd env cfg s lonLat altEll).state.fetchCache (gndTileIndex env cfg lonLat)
      = some { pf with conts := pf.conts ++ [⟨lonLat, altEll⟩] } ∧
    (getHeightAsyncGnd env cfg s lonLat altEll).state.elevationCache = s.elevationCache := by
  simp only [gndTileIndex] at hmiss hpend ⊢
  simp only [getHeightAsyncGnd, hmiss, hpend]
  simp [upd]

/-- Claim C2 witness: a pending fetch for the reference tile absorbs a second
request without issuing a new fetch. -/
theorem c2_witness :
    sPendA.elevationCache (gndTileIndex envA cfg14 pRef) = none ∧
    sPendA.fetchCache (gndTileIndex envA cfg14 pRef) = some pfA ∧
    (getHeightAsyncGnd envA cfg14 sPendA pRef 3).fetchIssued = false ∧
    (getHeightAsyncGnd envA cfg14 sPendA pRef 3).state.fetchCache (gndTileIndex envA cfg14 pRef)
      = some { pfA with conts := pfA.conts ++ [⟨pRef, 3⟩] } :=
  ⟨rfl, rfl, (c2_point_query_fetch_dedup envA cfg14 sPendA pRef 3 pfA rfl rfl).1,
   (c2_point_query_fetch_dedup envA cfg14 sPendA pRef 3 pfA rfl rfl).2.1⟩

/-- Claim C2 counterexample: the single-fetch-per-index guarantee does not
cover bulk segment loads.  After a GROUND-mode height request has put a fetch
for the reference tile in flight (the dedup record is present), `loadTerrain`
for a segment with the same tile index consults only the elevation cache,
never the fetch-dedup table, and issues a second fetch for the same index. -/
theorem c2_counterexample_bulk_load_bypasses_dedup :
    (getHeightAsyncGnd envA cfg14 emptyTerrainState pRef 3).fetchIssued = true ∧
    sAfterPoint.fetchCache tRef = some ⟨8510, 5520, 14, [⟨pRef, 3⟩]⟩ ∧
    segA.tileIndex = tRef ∧
    (loadTerrain ⟨[]⟩ false sAfterPoint segA).action = .fetchIssued :=
  ⟨rfl, rfl, rfl, rfl⟩

/-- Claim C3: `loadTerrain` invoked while the terrain lock is engaged marks
the segment not-loading immediately, issues no fetch, and leaves the terrain
state untouched. -/
theorem c3_lock_engaged_rejects_load (lock : Lock) (hasH : Bool) (s : TerrainState)
    (seg : Segment) (h : lock.isFree = false) :
    (loadTerrain lock hasH s seg).action = .rejected ∧
    (loadTerrain lock hasH s seg).segment = { seg with terrainIsLoading := false } ∧
    (loadTerrain lock hasH s seg).state = s := by
  simp [loadTerrain, h]

/-- Claim C3 witness: a lock with one holder rejects a load request. -/
theorem c3_witness :
    Lock.isFree ⟨[1]⟩ = false ∧
    (loadTerrain ⟨[1]⟩ true emptyTerrainState segA).action = .rejected ∧
    (loadTerrain ⟨[1]⟩ true emptyTerrainState segA).segment
      = { segA with terrainIsLoading := false } :=
  ⟨rfl, (c3_lock_engaged_rejects_load ⟨[1]⟩ true emptyTerrainState segA rfl).1,
   (c3_lock_engaged_rejects_load ⟨[1]⟩ true emptyTerrainState segA rfl).2.1⟩

/-- Claim C4: when a GROUND-mode fetch resolves with status error, the
no-elevation-data sentinel (an empty height grid with the tile extent) is
stored in the elevation cache, every registered continuation is invoked with
the ground term omitted (`altEll - undulation`), and any subsequent request
for the same tile index is served from the cache without a fetch. -/
theorem c4_error_caches_sentinel_and_stops_refetch (env : Env) (cfg : TerrainCfg)
    (s : TerrainState) (t : TileIndex) (pf : PendingFetch)
    (hpend : s.fetchCache t = some pf) :
    (resolveGndFetch env s t .error).1.elevationCache t
      = some ⟨[], getTileExtent pf.x pf.y pf.z⟩ ∧
    (resolveGndFetch env s t .error).2
      = pf.conts.map (fun c => some (c.altEll - env.geoid c.lonLat)) ∧
    ∀ lonLat altEll, gndTileIndex env cfg lonLat = t →
      (getHeightAsyncGnd env cfg (resolveGndFetch env s t .error).1 lonLat altEll).fetchIssued
        = false ∧
      (getHeightAsyncGnd env cfg (resolveGndFetch env s t .error).1 lonLat
          altEll).callbackNow
        = some (groundCallbackValue env lonLat ⟨[], getTileExtent pf.x pf.y pf.z⟩ altEll
            (env.geoid lonLat)) := by
  refine ⟨?_, ?_, ?_⟩
  · simp only [resolveGndFetch, hpend]
    simp [upd]
  · simp only [resolveGndFetch, hpend]
  · intro lonLat altEll hidx
    simp only [gndTileIndex] at hidx
    simp only [resolveGndFetch, hpend, getHeightAsyncGnd, hidx]
    simp [upd]

/-- Claim C4 witness: resolving the pending reference fetch with an error
stores the sentinel, calls back with the undulation-only value, and a
subsequent request for the tile is a cache hit. -/
theorem c4_witness :
    sPendA.fetchCache tRef = some pfA ∧
    (resolveGndFetch envA sPendA tRef .error).1.elevationCache tRef
      = some ⟨[], getTileExtent 8510 5520 14⟩ ∧
    (resolveGndFetch envA sPendA tRef .error).2 = [some (3 - envA.geoid pRef)] ∧
    (getHeightAsyncGnd envA cfg14 (resolveGndFetch envA sPendA tRef .error).1 pRef
        5).fetchIssued = false := by
  have h := c4_error_caches_sentinel_and_stops_refetch envA cfg14 sPendA tRef pfA rfl
  exact ⟨rfl, h.1, h.2.1, (h.2.2 pRef 5 rfl).1⟩

/-- Claim C5: a fetch resolving with status abort creates no elevation-cache
entry, discards the pending fetch record (so a later request for the same
index starts a fresh fetch), and runs no continuation; on the segment path an
aborted response only clears the loading flag, applying nothing and firing no
event. -/
theorem c5_abort_discards_pending_without_caching (env : Env) (cfg : TerrainCfg)
    (hasH : Bool) (s : TerrainState) (t : TileIndex) (seg : Segment) :
    (resolveGndFetch env s t .abort).1.elevationCache = s.elevationCache ∧
    (resolveGndFetch env s t .abort).1.fetchCache t = none ∧
    (resolveGndFetch env s t .abort).2 = [] ∧
    (∀ lonLat altEll, gndTileIndex env cfg lonLat = t → s.elevationCache t = none →
      (getHeightAsyncGnd env cfg (resolveGndFetch env s t .abort).1 lonLat altEll).fetchIssued
        = true) ∧
    (loadTerrainResolve hasH s seg .abort).state = s ∧
    (loadTerrainResolve hasH s seg .abort).segment = { seg with terrainIsLoading := false } ∧
    (loadTerrainResolve hasH s seg .abort).action = .dropped := by
  refine ⟨?_, ?_, ?_, ?_, rfl, rfl, rfl⟩
  · rcases hp : s.fetchCache t with _ | pf <;> simp [resolveGndFetch, hp]
  · rcases hp : s.fetchCache t with _ | pf <;> simp [resolveGndFetch, hp, upd]
  · rcases hp : s.fetchCache t with _ | pf <;> simp [resolveGndFetch, hp]
  · intro lonLat altEll hidx hmiss
    simp only [gndTileIndex] at hidx
    rcases hp : s.fetchCache t with _ | pf <;>
      simp [resolveGndFetch, hp, getHeightAsyncGnd, hidx, hmiss, upd]

/-- Claim C5 witness: aborting the pending reference fetch clears it without
caching, and the next request for the tile issues a fresh fetch. -/
theorem c5_witness :
    sPendA.fetchCache tRef = some pfA ∧
    (resolveGndFetch envA sPendA tRef .abort).1.fetchCache tRef = none ∧
    (resolveGndFetch envA sPendA tRef .abort).2 = [] ∧
    (getHeightAsyncGnd envA cfg14 (resolveGndFetch envA sPendA tRef .abort).1 pRef
        3).fetchIssued = true := by
  have h := c5_abort_discards_pending_without_caching envA cfg14 true sPendA tRef segA
  exact ⟨rfl, h.2.1, h.2.2.1, h.2.2.2.1 pRef 3 rfl rfl⟩

/-- Claim C6: a GROUND-mode height request whose tile index (computed at the
loader's configured maximum zoom) is in the elevation cache invokes the
callback immediately — no fetch, no state change — with
`altEll - (groundHeight + undulation)` whenever the interpolation produces a
ground height. -/
theorem c6_cache_hit_interpolates_without_io (env : Env) (cfg : TerrainCfg)
    (s : TerrainState) (lonLat : LonLat) (altEll : ℚ) (cache : CacheEntry)
    (hhit : s.elevationCache (gndTileIndex env cfg lonLat) = some cache) :
    getHeightAsyncGnd env cfg s lonLat altEll
      = ⟨s, some (groundCallbackValue env lonLat cache altEll (env.geoid lonLat)), false⟩ ∧
    ∀ g, getGroundHeight env lonLat cache = some g →
      groundCallbackValue env lonLat cache altEll (env.geoid lonLat)
        = some (altEll - (g + env.geoid lonLat)) := by
  constructor
  · simp only [gndTileIndex] at hhit
    simp only [getHeightAsyncGnd, hhit]
  · intro g hg
    simp only [groundCallbackValue, hg]

/-- Claim C6 witness: with the constant 2 × 2 tile cached for the reference
tile index, the request calls back at once with
`5 - (10 + 1) = altEll - (groundHeight + undulation)`. -/
theorem c6_witness :
    sHitB.elevationCache (gndTileIndex envB cfg14 pRef) = some cacheB ∧
    getHeightAsyncGnd envB cfg14 sHitB pRef 5
      = ⟨sHitB, some (groundCallbackValue envB pRef cacheB 5 (envB.geoid pRef)), false⟩ ∧
    groundCallbackValue envB pRef cacheB 5 (envB.geoid pRef) = some (5 - (10 + 1)) := by
  have h := c6_cache_hit_interpolates_without_io envB cfg14 sHitB pRef 5 cacheB rfl
  exact ⟨rfl, h.1, h.2 10 (getGroundHeight_cacheB envB rfl)⟩

/-- Claim C7: a GROUND-mode height query at `(7.0, 50.5)` against an empty
cache issues exactly one fetch, addressed to the tile computed from that
coordinate at zoom 14; when that fetch resolves successfully with a 32 × 32
all-zero height grid, the callback receives exactly
`ellipsoidalAltitude - geoidUndulation`. -/
theorem c7_scenario_one_fetch_then_zero_ground (env : Env) (altEll : ℚ)
    (hx : env.getTileX (7 : ℚ) 14 = 8510) (hy : env.getTileY (101/2 : ℚ) 14 = 5520)
    (hf : env.forward pRef = mercRef) :
    (getHeightAsyncGnd env cfg14 emptyTerrainState pRef altEll).fetchIssued = true ∧
    (getHeightAsyncGnd env cfg14 emptyTerrainState pRef altEll).callbackNow = none ∧
    (getHeightAsyncGnd env cfg14 emptyTerrainState pRef altEll).state.fetchCache tRef
      = some ⟨8510, 5520, 14, [⟨pRef, altEll⟩]⟩ ∧
    (∀ u : TileIndex, u ≠ tRef →
      (getHeightAsyncGnd env cfg14 emptyTerrainState pRef altEll).state.fetchCache u = none) ∧
    (resolveGndFetch env (getHeightAsyncGnd env cfg14 emptyTerrainState pRef altEll).state
        tRef (.ready (List.replicate 1024 0))).2 = [some (altEll - env.geoid pRef)] := by
  have hstep : getHeightAsyncGnd env cfg14 emptyTerrainState pRef altEll
      = ⟨⟨fun _ => none,
          upd (fun _ => none) (8510, 5520, 14) (some ⟨8510, 5520, 14, [⟨pRef, altEll⟩]⟩)⟩,
         none, true⟩ := by
    simp only [getHeightAsyncGnd, emptyTerrainState, cfg14]
    rw [show pRef.lon = (7 : ℚ) from rfl, show pRef.lat = (101/2 : ℚ) from rfl, hx, hy]
  have hfc : (getHeightAsyncGnd env cfg14 emptyTerrainState pRef altEll).state.fetchCache tRef
      = some ⟨8510, 5520, 14, [⟨pRef, altEll⟩]⟩ := by
    rw [hstep]
    simp [upd, tRef]
  refine ⟨by rw [hstep], by rw [hstep], hfc, ?_, ?_⟩
  · intro u hu
    rw [hstep]
    simp only [tRef] at hu
    simp [upd, hu]
  · simp only [resolveGndFetch, hfc]
    simp only [List.map_cons, List.map_nil]
    rw [show (⟨List.replicate 1024 0, getTileExtent 8510 5520 14⟩ : CacheEntry) = cacheZ
      from rfl]
    rw [groundCallbackValue, getGroundHeight_cacheZ env hf]
    simp

/-- Claim C7 witness: the scenario under the reference environment with
`altEll = 3` and unit undulation. -/
theorem c7_witness :
    envA.getTileX 7 14 = 8510 ∧ envA.getTileY (101/2) 14 = 5520 ∧
    envA.forward pRef = mercRef ∧
    (getHeightAsyncGnd envA cfg14 emptyTerrainState pRef 3).fetchIssued = true ∧
    (resolveGndFetch envA (getHeightAsyncGnd envA cfg14 emptyTerrainState pRef 3).state tRef
        (.ready (List.replicate 1024 0))).2 = [some (3 - envA.geoid pRef)] := by
  have h := c7_scenario_one_fetch_then_zero_ground envA 3 rfl rfl rfl
  exact ⟨rfl, rfl, rfl, h.1, h.2.2.2.2⟩

/-- Claim C8 (amended): the grid cell is split into the triangles
`(v0, v1, v2)` and `(v1, v2, v3)` and the ground height comes from whichever
triangle contains the point; but when the point lies in neither triangle the
code logs the data-integrity error and returns no value, so the callback
receives an invalid (NaN) height — not the claimed mean-sea-level fallback
`altEll - undulation`. -/
theorem c8_neither_triangle_yields_no_value (env : Env) (lonLat : LonLat)
    (td : CacheEntry) (altEll altMsl : ℚ)
    (h1 : cartesianToBarycentricLonLat (env.forward lonLat) (cellV0 (env.forward lonLat) td)
        (cellV1 (env.forward lonLat) td) (cellV2 (env.forward lonLat) td) = none)
    (h2 : cartesianToBarycentricLonLat (env.forward lonLat) (cellV1 (env.forward lonLat) td)
        (cellV2 (env.forward lonLat) td) (cellV3 (env.forward lonLat) td) = none) :
    getGroundHeight env lonLat td = none ∧
    groundCallbackValue env lonLat td altEll altMsl = none := by
  have hg : getGroundHeight env lonLat td = none := by
    simp only [getGroundHeight, h1, h2, pick2]
  exact ⟨hg, by simp only [groundCallbackValue, hg]⟩

/-- Claim C8 witness: at the malformed tile both triangle tests fail and the
callback value is invalid. -/
theorem c8_witness :
    getGroundHeight envC pC cacheC = none ∧
    groundCallbackValue envC pC cacheC 100 3 = none :=
  c8_neither_triangle_yields_no_value envC pC cacheC 100 3 baryC1 baryC2

/-- Claim C8 counterexample: at a concrete malformed tile (degenerate
extent — the data-integrity mismatch the claim is about) the point lies in
neither triangle, yet the height query does not fall back to
`altEll - undulation`: the interpolation yields no value and the callback
receives an invalid (NaN) height instead of `100 - 3`. -/
theorem c8_counterexample_no_msl_fallback :
    cartesianToBarycentricLonLat pC (cellV0 pC cacheC) (cellV1 pC cacheC)
      (cellV2 pC cacheC) = none ∧
    cartesianToBarycentricLonLat pC (cellV1 pC cacheC) (cellV2 pC cacheC)
      (cellV3 pC cacheC) = none ∧
    getGroundHeight envC pC cacheC = none ∧
    groundCallbackValue envC pC cacheC 100 (envC.geoid pC) ≠ some (100 - envC.geoid pC) := by
  refine ⟨baryC1, baryC2, getGroundHeight_cacheC, ?_⟩
  simp [groundCallbackValue, getGroundHeight_cacheC]

/-- Claim C9 (amended): one `load` event is dispatched per
`_applyElevationsData` call when a handler is subscribed, with the elevations
and the segment as payload — after a successful fetch with the decoded
elevations, on a cache hit with the cached elevations, but also on a fetch
error with a null payload; aborted or unrecognised responses apply nothing
and fire no event. -/
theorem c9_load_event_characterization (hasH : Bool) (s : TerrainState) (seg : Segment) :
    (∀ data, (loadTerrainResolve hasH s seg (.ready data)).action
      = .applied (some data) hasH) ∧
    (loadTerrainResolve hasH s seg .error).action = .applied none hasH ∧
    (loadTerrainResolve hasH s seg .abort).action = .dropped ∧
    (loadTerrainResolve hasH s seg .other).action = .dropped ∧
    (∀ lock cache, lock.isFree = true → seg.projectionIsEPSG3857 = true →
      s.elevationCache seg.tileIndex = some cache →
      (loadTerrain lock hasH s seg).action = .applied (some cache.heights) hasH) := by
  refine ⟨fun d => rfl, rfl, rfl, rfl, ?_⟩
  intro lock cache hl hp hc
  simp [loadTerrain, hl, hp, hc]

/-- Claim C9 witness: a ready response applies the decoded data and fires the
event; a cache hit applies the cached heights and fires the event. -/
theorem c9_witness :
    Lock.isFree ⟨[]⟩ = true ∧
    (loadTerrainResolve true sHitB segA (.ready [0])).action = .applied (some [0]) true ∧
    (loadTerrain ⟨[]⟩ true sHitB segA).action = .applied (some cacheB.heights) true := by
  have h := c9_load_event_characterization true sHitB segA
  exact ⟨rfl, h.1 [0], h.2.2.2.2 ⟨[]⟩ cacheB rfl rfl rfl⟩

/-- Claim C9 counterexample: the `load` event also fires for a tile that was
not successfully loaded — a fetch error still applies (null) elevations and
dispatches the event to the subscribed handler, and no sentinel is cached on
this path. -/
theorem c9_counterexample_error_fires_load_event :
    (loadTerrainResolve true emptyTerrainState segA .error).action = .applied none true ∧
    (loadTerrainResolve true emptyTerrainState segA .error).state = emptyTerrainState ∧
    LoadAction.applied none true ≠ .dropped := by
  refine ⟨rfl, rfl, ?_⟩
  simp

/-- Claim C10: the picking-colour buffers are module-level state shared by
every `RendererEvents` instance: one instance's `entityPickingEvents` call
overwrites the current/previous colours the other instance reads, so the
events the second instance dispatches from identical inputs differ depending
on whether the first instance ran — here instance B alone dispatches
`enter 7`, but dispatches nothing after instance A has run. -/
theorem c10_picking_state_shared_across_instances :
    (entityPickingEvents false redC lookupA m0).1.curr = redC ∧
    m0.curr ≠ redC ∧
    (entityPickingEvents false redC lookupB m0).2 = [.enter 7] ∧
    (entityPickingEvents false redC lookupB
        (entityPickingEvents false redC lookupA m0).1).2 = [] ∧
    (entityPickingEvents false redC lookupB
          (entityPickingEvents false redC lookupA m0).1).2
      ≠ (entityPickingEvents false redC lookupB m0).2 := by
  refine ⟨rfl, by decide, ?_, ?_, ?_⟩ <;> decide

end Og
